import Mathlib

/-
Verification of the annotatec core: a shallow embedding of
`src/annotatec/declarations.py` (namespace and lazy type compiler) and
`src/annotatec/parser.py` (comment-block extractor, line tokenizer and
declaration builder), with theorems settling the frozen claims.

Python objects are modelled as follows: machine-level ctypes descriptors
become the inductive `Obj`; object identity is captured by equality on
`Obj`, where every constructor that Python interns (primitive classes,
pointer and array types, which ctypes caches per element type) carries its
interned key, and every constructor that Python allocates fresh on each
call (struct classes, function-pointer instances, MembersWrapper objects)
carries an allocation id drawn from a monotone counter in the state.
Exceptions become the inductive `PyErr`; recursion is bounded by fuel.
-/

/-- Python exceptions raised by the embedded code paths. -/
inductive PyErr where
  /-- NamespaceError: name absent from the declarations namespace. -/
  | namespaceError (name : String)
  /-- DeclarationError: arity violation in a declaration constructor. -/
  | declarationError (msg : String)
  /-- TypeError, e.g. multiplying a ctypes type by a str, subscripting a
  ctypes class, or compiling a variable as a type. -/
  | typeError (msg : String)
  /-- AttributeError, e.g. `None.groups()` or a missing library symbol. -/
  | attributeError
  /-- IndexError, e.g. `name[-1]` on an empty string. -/
  | indexError
  /-- KeyError from indexing a dict with an absent key. -/
  | keyError
  /-- RecursionError: the fuel bound standing in for Python's stack limit. -/
  | recursionError
deriving DecidableEq, Repr

/-- A Python value reachable from the type-compilation paths.
Constructors carrying `id : Nat` model objects freshly allocated at each
compilation; `ptr` and `arr` carry no id because ctypes interns pointer and
array types per element type, and `base`/`pyNone`/`declObj` are the interned
`BASE_C_TYPES` entries, `None`, and the registered declaration objects. -/
inductive Obj where
  /-- Python `None` (the `BASE_C_TYPES` entry of `void`). -/
  | pyNone
  /-- An interned primitive ctypes class, keyed by its `BASE_C_TYPES` name. -/
  | base (name : String)
  /-- `ctypes.POINTER(elem)` (interned per element type). -/
  | ptr (elem : Obj)
  /-- A ctypes array type `elem * n` (interned per element and length). -/
  | arr (elem : Obj) (n : Nat)
  /-- The `class compiled_struct(ctypes.Structure)` created by
  `StructDeclaration.compile`, fresh per compilation. -/
  | structCls (id : Nat) (fields : List (String × Obj))
  /-- A `prototype((name, lib))` instance created by
  `FunctionDeclaration.compile`, fresh per compilation. -/
  | funcObj (id : Nat) (ret : Obj) (args : List Obj) (sym : String)
  /-- A `MembersWrapper(subject, wrapper)` object, fresh per construction;
  `declName` identifies the wrapped declaration. -/
  | wrapper (id : Nat) (subject : Obj) (declName : String)
  /-- A declaration object itself returned as a value (the branch of
  `DeclarationsNamespace.compile` that returns a `VariableDeclaration`). -/
  | declObj (name : String)

/-- The argument of `DeclarationsNamespace.compile`: normally a type-name
string, but `EnumDeclaration`/`FlagsDeclaration` store `BASE_C_TYPES["int"]`
(a ctypes class) as the default underlying type, so a class can reach it. -/
inductive TypeRef where
  | str (s : String)
  | cls (o : Obj)

/-- The declaration kinds of `declarations.py` (`_DECLARATIONS`). -/
inductive DeclKind where
  | functionK | structK | enumK | flagsK | variableK | typedefK
deriving DecidableEq, Repr

/-- The kind-specific fields a declaration object holds after its
`__init__` finished.  `unfinished` is the observable state of an object
whose base `Declaration.__init__` ran (so it is already registered in the
namespace) but whose subclass validation raised before the fields were
assigned. -/
inductive DeclData where
  | unfinished (kind : DeclKind)
  /-- `FunctionDeclaration`: `return_type`, `argument_types`. -/
  | func (return_type : String) (argument_types : List String)
  /-- `StructDeclaration`: `members`, mapping member name to type name. -/
  | structD (members : List (String × String))
  /-- `EnumDeclaration`: `enum_type` and `members` (values already
  evaluated at construction time). -/
  | enum (enum_type : TypeRef) (members : List (String × Int))
  /-- `FlagsDeclaration`: `flags_type` and `members`. -/
  | flags (flags_type : TypeRef) (members : List (String × Int))
  /-- `VariableDeclaration`: `variable_type`. -/
  | var (variable_type : String)
  /-- `TypedefDeclaration`: `old_type`. -/
  | typedef (old_type : String)

/-- One declaration object as stored in the namespace dict: its data plus
the `compiled` flag and `compilation_result` that `Declaration.__init__`
initializes to `False`/`None`. -/
structure Entry where
  decl : DeclData
  compiled : Bool
  compilation_result : Obj

/-- The `DeclarationsNamespace` state: the dict of declarations (an
insertion-ordered association list, like a Python dict), the set of symbols
exported by the borrowed `lib`, and the allocation counter that realizes
object identity for freshly created Python objects. -/
structure NsState where
  entries : List (String × Entry)
  lib : List String
  nextId : Nat

/-- Python-dict lookup on an association list. -/
def dictGet {α : Type} (d : List (String × α)) (k : String) : Option α :=
  (d.find? (fun p => p.1 == k)).map (fun p => p.2)

/-- Python-dict assignment: overwrite in place when the key exists,
otherwise append (dicts preserve insertion order). -/
def dictSet {α : Type} (d : List (String × α)) (k : String) (v : α) :
    List (String × α) :=
  if d.any (fun p => p.1 == k) then
    d.map (fun p => if p.1 == k then (k, v) else p)
  else d ++ [(k, v)]

/-- Overwrite one declaration entry of the namespace. -/
def dictSetEntry (st : NsState) (k : String) (e : Entry) : NsState :=
  { st with entries := dictSet st.entries k e }

/-- The fixed primitive vocabulary `BASE_C_TYPES` of `declarations.py`
(lines 12-45); `void` maps to Python `None`. -/
def BASE_C_TYPES : List (String × Obj) :=
  [("void", .pyNone),
   ("uint8", .base "uint8"), ("uint16", .base "uint16"),
   ("uint32", .base "uint32"), ("uint64", .base "uint64"),
   ("int8", .base "int8"), ("int16", .base "int16"),
   ("int32", .base "int32"), ("int64", .base "int64"),
   ("bool", .base "bool"), ("char", .base "char"),
   ("wchar", .base "wchar"), ("uchar", .base "uchar"),
   ("short", .base "short"), ("ushort", .base "ushort"),
   ("int", .base "int"), ("uint", .base "uint"),
   ("long", .base "long"), ("ulong", .base "ulong"),
   ("longlong", .base "longlong"), ("ulonglong", .base "ulonglong"),
   ("string", .base "string"),
   ("size", .base "size"), ("ssize", .base "ssize"),
   ("double", .base "double"), ("long_double", .base "long_double"),
   ("float", .base "float")]

/-- `DeclarationsNamespace.unwrap` (declarations.py lines 65-69): a
`MembersWrapper` yields its subject, anything else itself. -/
def unwrapObj : Obj → Obj
  | .wrapper _ subject _ => subject
  | o => o

/-- Whether an object is Python `None`. -/
def isPyNone : Obj → Bool
  | .pyNone => true
  | _ => false

/-- Whether an object is a ctypes type acceptable to `POINTER`, to a
`_fields_` entry, or to `CFUNCTYPE` argument positions. -/
def isCtypesType : Obj → Bool
  | .base _ | .ptr _ | .arr _ _ | .structCls _ _ => true
  | _ => false

/-- `ctypes.POINTER(o)`: interned pointer type on a ctypes type, TypeError
on anything else (`None`, wrapper objects, instances, declarations). -/
def pyPOINTER (o : Obj) : Except PyErr Obj :=
  if isCtypesType o then .ok (.ptr o)
  else .error (.typeError "type must have storage info")

/-- Python `\w` over ASCII: letters, digits and the underscore. -/
def isWordChar (c : Char) : Bool :=
  c.isAlphanum || c == '_'

/-- The semantics of `_ARRAY_TYPE_RE.match(name)` for the anchored pattern
`(\w+)\[(\d+)\]` (declarations.py line 56): a maximal nonempty run of word
characters, a literal bracket, a maximal nonempty run of digits, a closing
bracket; trailing text is ignored (`re.match` matches a prefix). Returns
the two captured groups, both as strings. -/
def arrayReMatch (s : String) : Option (String × String) :=
  let w := s.data.takeWhile isWordChar
  if w.isEmpty then none
  else
    match s.data.drop w.length with
    | '[' :: rest1 =>
      let d := rest1.takeWhile Char.isDigit
      if d.isEmpty then none
      else
        match rest1.drop d.length with
        | ']' :: _ => some (⟨w⟩, ⟨d⟩)
        | _ => none
    | _ => none

/-- Whether a Python object is an instance of `VariableDeclaration` in the
`isinstance` sense: a fully constructed variable, or an object whose
`VariableDeclaration.__init__` raised after the base class ran (its type is
already `VariableDeclaration` even though construction failed). -/
def isVariableInst : DeclData → Bool
  | .var _ => true
  | .unfinished .variableK => true
  | _ => false

/-- Thread `compile_unwrap` over a list of type names, left to right,
stopping at the first exception (the evaluation order of the list built
for `ctypes.CFUNCTYPE` in `FunctionDeclaration.compile`). -/
def threadTypes (f : String → NsState → NsState × Except PyErr Obj) :
    NsState → List String → NsState × Except PyErr (List Obj)
  | st, [] => (st, .ok [])
  | st, t :: ts =>
    match f t st with
    | (st1, .error e) => (st1, .error e)
    | (st1, .ok o) =>
      match threadTypes f st1 ts with
      | (st2, .error e) => (st2, .error e)
      | (st2, .ok os) => (st2, .ok (o :: os))

/-- Thread `compile_unwrap` over the `(field_name, field_type)` pairs of a
struct's `members`, preserving order, stopping at the first exception (the
list comprehension building `_fields_` in `StructDeclaration.compile`). -/
def threadFields (f : String → NsState → NsState × Except PyErr Obj) :
    NsState → List (String × String) →
    NsState × Except PyErr (List (String × Obj))
  | st, [] => (st, .ok [])
  | st, (fn, ft) :: rest =>
    match f ft st with
    | (st1, .error e) => (st1, .error e)
    | (st1, .ok o) =>
      match threadFields f st1 rest with
      | (st2, .error e) => (st2, .error e)
      | (st2, .ok os) => (st2, .ok ((fn, o) :: os))

/-- `DeclarationsNamespace.compile(name, unwrap)` (declarations.py lines
71-114), with each declaration object's `compile` method inlined at the
dispatch point:
`FunctionDeclaration.compile` (192-205), `StructDeclaration.compile`
(256-271), `EnumDeclaration.compile` (297-305), `FlagsDeclaration.compile`
(330-338), `VariableDeclaration.compile` (358-361, reached only by direct
method call, never from this dispatch) and `TypedefDeclaration.compile`
(396-402). Fuel bounds the recursion (Python's stack limit).
Points where the Python runtime, not the annotatec code, raises:
a ctypes class passed as `name` is subscripted by `name[-1]` (TypeError:
not subscriptable); `name[-1]` on an empty string is IndexError;
`_ARRAY_TYPE_RE.match(name).groups()` on a failed match is AttributeError;
`compiled * amount` multiplies a type by the captured string `amount`
(never converted to int), which is TypeError for every object `compiled`
can be; `CFUNCTYPE`/`_fields_` reject non-ctypes types with TypeError; a
symbol absent from the library raises AttributeError. -/
def nsCompile (fuel : Nat) (st : NsState) (r : TypeRef) (unwrap : Bool) :
    NsState × Except PyErr Obj :=
  match fuel with
  | 0 => (st, .error .recursionError)
  | fuel + 1 =>
    match r with
    | .cls _ => (st, .error (.typeError "object is not subscriptable"))
    | .str s =>
      if s.data.isEmpty then (st, .error .indexError)
      else if s.data.getLast?.getD ' ' == '*' then
        -- if name[-1] == "*": return POINTER(unwrap(compile(name[:-1])))
        match nsCompile fuel st (.str ⟨s.data.dropLast⟩) false with
        | (st1, .error e) => (st1, .error e)
        | (st1, .ok compiled) =>
          match pyPOINTER (unwrapObj compiled) with
          | .error e => (st1, .error e)
          | .ok p => (st1, .ok p)
      else if s.data.contains '[' && s.data.contains ']' then
        -- type_name, amount = _ARRAY_TYPE_RE.match(name).groups()
        -- compiled = self.compile(type_name) * amount   (amount is a str)
        match arrayReMatch s with
        | none => (st, .error .attributeError)
        | some (type_name, _amount) =>
          match nsCompile fuel st (.str type_name) false with
          | (st1, .error e) => (st1, .error e)
          | (st1, .ok _) =>
            (st1, .error (.typeError "cannot multiply sequence by non-int of type str"))
      else
        match dictGet BASE_C_TYPES s with
        | some o => (st, .ok o)
        | none =>
          match dictGet st.entries s with
          | none => (st, .error (.namespaceError s))
          | some e =>
            if isVariableInst e.decl then (st, .ok (.declObj s))
            else
              match e.decl with
              | .var _ => (st, .ok (.declObj s))
              | .unfinished _ =>
                -- a partially constructed non-variable object: its compile
                -- method reads a field __init__ never assigned
                (st, .error .attributeError)
              | .func ret args =>
                if e.compiled then
                  (st, .ok (if unwrap then unwrapObj e.compilation_result
                            else e.compilation_result))
                else
                  match threadTypes
                      (fun t s2 => nsCompile fuel s2 (.str t) true)
                      st (ret :: args) with
                  | (st1, .error er) => (st1, .error er)
                  | (st1, .ok objs) =>
                    match objs with
                    | [] => (st1, .error .attributeError)
                    | retO :: argOs =>
                      if (isCtypesType retO || isPyNone retO)
                          && argOs.all isCtypesType then
                        if st1.lib.contains s then
                          let fid := st1.nextId
                          let res := Obj.funcObj fid retO argOs s
                          let st2 := dictSetEntry
                            { st1 with nextId := fid + 1 } s
                            { e with compiled := true,
                                     compilation_result := res }
                          (st2, .ok (if unwrap then unwrapObj res else res))
                        else (st1, .error .attributeError)
                      else (st1, .error (.typeError "invalid function type"))
              | .structD members =>
                if e.compiled then
                  (st, .ok (if unwrap then unwrapObj e.compilation_result
                            else e.compilation_result))
                else
                  match threadFields
                      (fun t s2 => nsCompile fuel s2 (.str t) true)
                      st members with
                  | (st1, .error er) => (st1, .error er)
                  | (st1, .ok fields) =>
                    if fields.all (fun p => isCtypesType p.2) then
                      let cid := st1.nextId
                      let res := Obj.wrapper (cid + 1) (.structCls cid fields) s
                      let st2 := dictSetEntry
                        { st1 with nextId := cid + 2 } s
                        { e with compiled := true, compilation_result := res }
                      (st2, .ok (if unwrap then unwrapObj res else res))
                    else (st1, .error (.typeError "invalid field type"))
              | .enum etype _ =>
                if e.compiled then
                  (st, .ok (if unwrap then unwrapObj e.compilation_result
                            else e.compilation_result))
                else
                  match nsCompile fuel st etype true with
                  | (st1, .error er) => (st1, .error er)
                  | (st1, .ok subj) =>
                    let wid := st1.nextId
                    let res := Obj.wrapper wid subj s
                    let st2 := dictSetEntry
                      { st1 with nextId := wid + 1 } s
                      { e with compiled := true, compilation_result := res }
                    (st2, .ok (if unwrap then unwrapObj res else res))
              | .flags ftype _ =>
                if e.compiled then
                  (st, .ok (if unwrap then unwrapObj e.compilation_result
                            else e.compilation_result))
                else
                  match nsCompile fuel st ftype true with
                  | (st1, .error er) => (st1, .error er)
                  | (st1, .ok subj) =>
                    let wid := st1.nextId
                    let res := Obj.wrapper wid subj s
                    let st2 := dictSetEntry
                      { st1 with nextId := wid + 1 } s
                      { e with compiled := true, compilation_result := res }
                    (st2, .ok (if unwrap then unwrapObj res else res))
              | .typedef old =>
                if e.compiled then
                  (st, .ok (if unwrap then unwrapObj e.compilation_result
                            else e.compilation_result))
                else
                  match nsCompile fuel st (.str old) false with
                  | (st1, .error er) => (st1, .error er)
                  | (st1, .ok res) =>
                    let st2 := dictSetEntry st1 s
                      { e with compiled := true, compilation_result := res }
                    (st2, .ok (if unwrap then unwrapObj res else res))

/-- `VariableDeclaration.compile` (declarations.py lines 358-361): raises
unconditionally; a variable can never be used as a type name. -/
def VariableDeclaration_compile (name : String) : Except PyErr Obj :=
  .error (.typeError
    ("Tried to compile variable `" ++ name ++
     "`. Variables cannot be used like type names. Use @typedef instead."))

/-- `Declaration.__init__` (declarations.py lines 143-154): registers the
object into the namespace under its name and initializes the compiled
state, before any subclass validation has run. -/
def Declaration_init (st : NsState) (name : String) (kind : DeclKind) :
    NsState :=
  let e : Entry :=
    { decl := .unfinished kind, compiled := false,
      compilation_result := .pyNone }
  { st with entries := dictSet st.entries name e }

/-- Replace the registered entry's declaration data once a subclass
`__init__` finished assigning its fields. -/
def setDeclData (st : NsState) (name : String) (d : DeclData) : NsState :=
  match dictGet st.entries name with
  | some e => dictSetEntry st name { e with decl := d }
  | none => st

/-- `FunctionDeclaration.__init__` (declarations.py lines 166-190): the
base class registers first, then the arity of the return unit and of each
argument unit is validated (`if argument_units and any(...)` skips the
argument check when the argument list is `None` or empty). -/
def FunctionDeclaration_init (st : NsState) (name : String)
    (return_unit : List String)
    (argument_units : Option (List (List String))) :
    NsState × Except PyErr Unit :=
  let st1 := Declaration_init st name .functionK
  if return_unit.length ≠ 1 then
    (st1, .error (.declarationError
      "Function declaration have more than one values for @return."))
  else if (argument_units.getD []).any (fun a => a.length != 1) then
    (st1, .error (.declarationError
      "Function declaration have more than one values for @argument."))
  else
    (setDeclData st1 name
      (.func (return_unit.headD "")
        ((argument_units.getD []).map (fun a => a.headD ""))), .ok ())

/-- `StructDeclaration.__init__` (declarations.py lines 240-254): register,
validate that every member unit has exactly two values, then build the
members dict from `(type_name, name)` pairs keyed by the member name. -/
def StructDeclaration_init (st : NsState) (name : String)
    (member_units : List (List String)) : NsState × Except PyErr Unit :=
  let st1 := Declaration_init st name .structK
  if member_units.any (fun m => m.length != 2) then
    (st1, .error (.declarationError
      "Struct declaration must have exactly 2 values for @member."))
  else
    (setDeclData st1 name
      (.structD (member_units.foldl
        (fun d m => dictSet d (m.getD 1 "") (m.getD 0 "")) [])), .ok ())

/-- `EnumDeclaration.__init__` (declarations.py lines 279-295): register,
validate member arity, then default `enum_type` to the ctypes class
`BASE_C_TYPES["int"]` when no type unit was given (otherwise the type-name
string), and evaluate each member value from its text. `pyEval` stands for
Python's `eval` on the value text. -/
def EnumDeclaration_init (st : NsState) (name : String)
    (member_units : List (List String)) (type_unit : Option (List String))
    (pyEval : String → Int) : NsState × Except PyErr Unit :=
  let st1 := Declaration_init st name .enumK
  if member_units.any (fun m => m.length != 2) then
    (st1, .error (.declarationError
      "Struct declaration must have exactly 2 values for @member."))
  else
    let etype : TypeRef :=
      match type_unit with
      | none => .cls ((dictGet BASE_C_TYPES "int").getD .pyNone)
      | some [] => .cls ((dictGet BASE_C_TYPES "int").getD .pyNone)
      | some (t :: _) => .str t
    (setDeclData st1 name
      (.enum etype (member_units.foldl
        (fun d m => dictSet d (m.getD 0 "") (pyEval (m.getD 1 ""))) [])),
     .ok ())

/-- `FlagsDeclaration.__init__` (declarations.py lines 313-328): same shape
as the enum constructor, over `@flag` units. -/
def FlagsDeclaration_init (st : NsState) (name : String)
    (type_unit : Option (List String)) (flag_units : List (List String))
    (pyEval : String → Int) : NsState × Except PyErr Unit :=
  let st1 := Declaration_init st name .flagsK
  if flag_units.any (fun m => m.length != 2) then
    (st1, .error (.declarationError
      "Flags declaration must have exactly 2 values for @flag."))
  else
    let ftype : TypeRef :=
      match type_unit with
      | none => .cls ((dictGet BASE_C_TYPES "int").getD .pyNone)
      | some [] => .cls ((dictGet BASE_C_TYPES "int").getD .pyNone)
      | some (t :: _) => .str t
    (setDeclData st1 name
      (.flags ftype (flag_units.foldl
        (fun d m => dictSet d (m.getD 0 "") (pyEval (m.getD 1 ""))) [])),
     .ok ())

/-- `VariableDeclaration.__init__` (declarations.py lines 345-356). -/
def VariableDeclaration_init (st : NsState) (name : String)
    (type_unit : List String) : NsState × Except PyErr Unit :=
  let st1 := Declaration_init st name .variableK
  if type_unit.length ≠ 1 then
    (st1, .error (.declarationError
      "Variable declaration must have one value for @type."))
  else (setDeclData st1 name (.var (type_unit.headD "")), .ok ())

/-- `TypedefDeclaration.__init__` (declarations.py lines 382-394). -/
def TypedefDeclaration_init (st : NsState) (name : String)
    (from_type_unit : List String) : NsState × Except PyErr Unit :=
  let st1 := Declaration_init st name .typedefK
  if from_type_unit.length ≠ 1 then
    (st1, .error (.declarationError
      "TypedefDeclaration declaration must have one value for @from_type."))
  else (setDeclData st1 name (.typedef (from_type_unit.headD "")), .ok ())

/-- The `VariableDeclaration.var_type` property (declarations.py lines
363-371): resolve and memoize the variable's declared type through the
`compiled`/`compilation_result` pair of the declaration itself. -/
def VariableDeclaration_var_type (fuel : Nat) (st : NsState)
    (name : String) : NsState × Except PyErr Obj :=
  match dictGet st.entries name with
  | none => (st, .error .keyError)
  | some e =>
    match e.decl with
    | .var vt =>
      if e.compiled then (st, .ok e.compilation_result)
      else
        match nsCompile fuel st (.str vt) false with
        | (st1, .error er) => (st1, .error er)
        | (st1, .ok r) =>
          (dictSetEntry st1 name
            { e with compiled := true, compilation_result := r }, .ok r)
    | _ => (st, .error .attributeError)

/-- `DeclarationsNamespace.reset_compilation` (declarations.py lines
127-131): a `VariableDeclaration` instance is skipped, any other entry has
its compiled state cleared (`compiled = False`,
`compilation_result = None`). A missing name is a KeyError. -/
def reset_compilation (st : NsState) (name : String) :
    NsState × Except PyErr Unit :=
  match dictGet st.entries name with
  | none => (st, .error .keyError)
  | some e =>
    if isVariableInst e.decl then (st, .ok ())
    else
      (dictSetEntry st name
        { e with compiled := false, compilation_result := .pyNone }, .ok ())

/-- `DeclarationsNamespace.reset_compilations` (declarations.py lines
133-135): reset every key of the dict in order (every key is present, so
no KeyError can occur; the error component is dropped accordingly). -/
def reset_compilations (st : NsState) : NsState :=
  (st.entries.map Prod.fst).foldl (fun s n => (reset_compilation s n).1) st

/-- Python `\s` over the ASCII range: space, tab, newline, carriage
return, vertical tab and form feed. -/
def pyIsSpace (c : Char) : Bool :=
  c == ' ' || c == '\t' || c == '\n' || c == '\r' ||
  c == '\x0b' || c == '\x0c'

/-- The semantics of `_COMMENT_START_RE.match(line)` for the anchored
pattern `/\*\s*` with `^` (parser.py line 7): the match succeeds exactly
when the line's first two characters are the literal slash and star (the
trailing `\s*` always matches, possibly empty). -/
def commentStartMatchesL : List Char → Bool
  | '/' :: '*' :: _ => true
  | _ => false

/-- String wrapper for `_COMMENT_START_RE.match`. -/
def commentStartMatches (line : String) : Bool :=
  commentStartMatchesL line.data

/-- The semantics of `_COMMENT_END_RE.match(line)` for the pattern
`\s*\*/` with `$` (parser.py line 8) anchored at position 0 by `re.match`:
it succeeds exactly when the line is a whitespace run followed by the
two-character close marker at the very end. -/
def commentEndMatchesL (l : List Char) : Bool :=
  decide (l.dropWhile pyIsSpace = ['*', '/'])

/-- String wrapper for `_COMMENT_END_RE.match`. -/
def commentEndMatches (line : String) : Bool :=
  commentEndMatchesL line.data

/-- `re.sub(_COMMENT_END_RE, repl="", string=line)`: the pattern
`\s*\*/$` has at most one match (it must end at the end of the string), at
the start of the maximal whitespace run preceding a final close marker; the
substitution removes that run and the marker, and leaves a line not ending
in the marker unchanged. -/
def stripCommentEnd (line : String) : String :=
  match line.data.reverse with
  | '/' :: '*' :: rest => ⟨(rest.dropWhile pyIsSpace).reverse⟩
  | _ => line

/-- The per-line state of `FileParser.scrap_file_declarations`
(parser.py lines 171-194): the buffered block and the
`inside_declaration` flag. -/
structure ScrapState where
  declaration_buffer : List String
  inside_declaration : Bool
deriving DecidableEq, Repr

/-- One iteration of the loop of `scrap_file_declarations` over a line:
a start match opens buffering, every line while open is appended, an end
match closes buffering, strips the close marker from the last buffered
line and hands the buffer over (returned here as the optional block)
before clearing it. Indexing `declaration_buffer[-1]` on an empty buffer
is an IndexError. -/
def scrapStep (st : ScrapState) (line : String) :
    Except PyErr (ScrapState × Option (List String)) :=
  let inside1 :=
    if commentStartMatches line then true else st.inside_declaration
  let buf1 :=
    if inside1 then st.declaration_buffer ++ [line]
    else st.declaration_buffer
  if commentEndMatches line then
    match buf1.getLast? with
    | none => .error .indexError
    | some last =>
      .ok (⟨[], false⟩, some (buf1.dropLast ++ [stripCommentEnd last]))
  else .ok (⟨buf1, inside1⟩, none)

/-- The whole loop of `scrap_file_declarations`: the blocks handed to
`parse_declaration`, in order (a block left open at end of input is
silently dropped with the final state). -/
def scrapLoop : ScrapState → List String → Except PyErr (List (List String))
  | _, [] => .ok []
  | st, l :: ls =>
    match scrapStep st l with
    | .error e => .error e
    | .ok (st1, none) => scrapLoop st1 ls
    | .ok (st1, some blk) =>
      match scrapLoop st1 ls with
      | .error e => .error e
      | .ok blks => .ok (blk :: blks)

/-- The scanning state of `FileParser.parse_line_units` (parser.py lines
262-313): the tag name captured so far, the flushed value tokens, the
character buffer, the parenthesis-depth counter with its previous value,
and the flag set while scanning a tag name. -/
structure TokState where
  units_type_name : String
  units : List String
  char_buffer : String
  bracket_prev_stack_counter : Int
  bracket_stack_counter : Int
  parsing_unit_type_name : Bool
deriving DecidableEq, Repr

/-- What one scanned character did: captured the tag, performed a buffer
flush, or neither. -/
inductive TokEvent where
  | noFlush | tagCaptured | tokenFlushed
deriving DecidableEq, Repr

/-- The local `flush_buffer` of `parse_line_units`: append the buffered
characters as one token, unless the buffer is empty. -/
def flushBuffer (s : TokState) : TokState :=
  if s.char_buffer.data.isEmpty then s
  else { s with units := s.units ++ [s.char_buffer], char_buffer := "" }

/-- The tail of the loop body of `parse_line_units`: update the
parenthesis counters on a bracket character and append the character to
the buffer. -/
def parenUpdateAppend (s : TokState) (c : Char) : TokState :=
  let s1 :=
    if c == '(' then
      { s with bracket_prev_stack_counter := s.bracket_stack_counter,
               bracket_stack_counter := s.bracket_stack_counter + 1 }
    else if c == ')' then
      { s with bracket_prev_stack_counter := s.bracket_stack_counter,
               bracket_stack_counter := s.bracket_stack_counter - 1 }
    else s
  { s1 with char_buffer := s1.char_buffer.push c }

/-- One iteration of the character loop of `parse_line_units`, paired
with the event it performed. An `@` turns the tag-name flag on; a space
or newline then either captures the tag (ending the tag-name scan),
flushes the buffer when the depth counter is zero (whether or not its
previous value was nonzero — the two `elif` arms of the source), or, with
the depth nonzero, falls through and is appended like any other
character. -/
def tokStepEv (s : TokState) (c : Char) : TokState × TokEvent :=
  let s := if c == '@' then { s with parsing_unit_type_name := true } else s
  if c == ' ' || c == '\n' then
    if s.parsing_unit_type_name then
      ({ s with parsing_unit_type_name := false,
                units_type_name := s.char_buffer, char_buffer := "" },
       .tagCaptured)
    else if s.bracket_stack_counter == 0 &&
        !(s.bracket_prev_stack_counter == 0) then
      ({ flushBuffer s with
           bracket_prev_stack_counter := s.bracket_stack_counter },
       .tokenFlushed)
    else if s.bracket_stack_counter == 0 &&
        s.bracket_prev_stack_counter == 0 then
      (flushBuffer s, .tokenFlushed)
    else (parenUpdateAppend s c, .noFlush)
  else (parenUpdateAppend s c, .noFlush)

/-- The state transition of one scanned character. -/
def tokStep (s : TokState) (c : Char) : TokState :=
  (tokStepEv s c).1

/-- The initial scanning state of `parse_line_units`. -/
def initTokState : TokState :=
  { units_type_name := "", units := [], char_buffer := "",
    bracket_prev_stack_counter := 0, bracket_stack_counter := 0,
    parsing_unit_type_name := false }

/-- `FileParser.parse_line_units(line)`: scan `line + "\n"` (the appended
newline is the sentinel flushing the final token) and return the captured
tag with the ordered value tokens. -/
def parse_line_units (line : String) : String × List String :=
  let fin := (line.data ++ ['\n']).foldl tokStep initTokState
  (fin.units_type_name, fin.units)

/-- Exceptions of `parser.py` (all are `ParserError` in the source; the
constructors carry what the message interpolates). -/
inductive BuildErr where
  /-- "Declaration ... does not have a name" (the kind is named). -/
  | missingName (kind : String)
  /-- "Unknown unit type ... in declaration ..." (the offending tag, as
  written, and the kind). -/
  | unknownUnit (tag : String) (kind : String)
deriving DecidableEq, Repr

/-- The class-level field metadata of one declaration kind of
`parser.py`: its tag and its recognized singular and plural fields. -/
structure KindInfo where
  type_name : String
  singular_units : List String
  plural_units : List String
deriving DecidableEq, Repr

/-- `parser.FunctionDeclaration` metadata (parser.py lines 26-29). -/
def functionKindInfo : KindInfo := ⟨"function", ["return"], ["argument"]⟩

/-- `parser.StructDeclaration` metadata (parser.py lines 50-52). -/
def structKindInfo : KindInfo := ⟨"struct", [], ["member"]⟩

/-- `parser.EnumDeclaration` metadata (parser.py lines 71-74). -/
def enumKindInfo : KindInfo := ⟨"enum", ["type"], ["member"]⟩

/-- `parser.FlagsDeclaration` metadata (parser.py lines 91-94). -/
def flagsKindInfo : KindInfo := ⟨"flags", ["type"], ["flag"]⟩

/-- `parser.VariableDeclaration` metadata (parser.py lines 115-117). -/
def variableKindInfo : KindInfo := ⟨"variable", ["type"], []⟩

/-- `parser._DECLARATIONS` (parser.py lines 133-135). -/
def PARSER_DECLARATIONS : List KindInfo :=
  [functionKindInfo, structKindInfo, enumKindInfo, flagsKindInfo,
   variableKindInfo]

/-- Python `str.lstrip("@")`: drop every leading at sign. -/
def lstripAtSigns (s : String) : String := ⟨s.data.dropWhile (· == '@')⟩

/-- The grouping state of `FileParser.add_declaration` (parser.py lines
228-260): the singular-unit dict (last occurrence wins), the plural-unit
dict of grouped value tuples, and the declaration's name. -/
structure BuildAcc where
  singular_units : List (String × List String)
  plural_units : List (String × List (List String))
  declaration_name : Option String
deriving DecidableEq, Repr

/-- `defaultdict(list)` append: extend the list under the key, creating
it when absent. -/
def dictAppend (d : List (String × List (List String))) (k : String)
    (v : List String) : List (String × List (List String)) :=
  match dictGet d k with
  | some vs => dictSet d k (vs ++ [v])
  | none => d ++ [(k, [v])]

/-- One iteration of the unit loop of `add_declaration`: strip the tag's
at signs; the kind's own tag supplies the declaration name from its first
value (no values is an error); a recognized singular field overwrites its
slot under the key `tag + "_unit"`; a recognized plural field appends the
grouped values under `tag + "_units"`; any other tag raises the
unknown-unit error naming the tag as written and the kind. -/
def buildStep (kind : KindInfo) (acc : BuildAcc)
    (u : String × List String) : Except BuildErr BuildAcc :=
  let stripped := lstripAtSigns u.1
  if stripped == kind.type_name then
    match u.2 with
    | [] => .error (.missingName kind.type_name)
    | v :: _ => .ok { acc with declaration_name := some v }
  else if kind.singular_units.contains stripped then
    .ok { acc with singular_units :=
            dictSet acc.singular_units (stripped ++ "_unit") u.2 }
  else if kind.plural_units.contains stripped then
    .ok { acc with plural_units :=
            dictAppend acc.plural_units (stripped ++ "_units") u.2 }
  else .error (.unknownUnit u.1 kind.type_name)

/-- The unit loop of `add_declaration`, stopping at the first raised
error. -/
def buildLoop (kind : KindInfo) (acc : BuildAcc) :
    List (String × List String) → Except BuildErr BuildAcc
  | [] => .ok acc
  | u :: us =>
    match buildStep kind acc u with
    | .error e => .error e
    | .ok acc1 => buildLoop kind acc1 us

/-- The grouping phase of `FileParser.add_declaration` over a block's
tokenized units, from the empty accumulator. -/
def add_declaration_units (kind : KindInfo)
    (units : List (String × List String)) : Except BuildErr BuildAcc :=
  buildLoop kind ⟨[], [], none⟩ units

/-- Sample state: the empty namespace. -/
def emptyNs : NsState := ⟨[], [], 0⟩

/-- Sample state: a namespace holding an uncompiled two-member struct. -/
def pointNs : NsState :=
  ⟨[("Point", ⟨.structD [("x", "int32"), ("y", "int32")], false, .pyNone⟩)],
   [], 0⟩

/-- Sample state: a namespace holding one uncompiled variable. -/
def varNs : NsState := ⟨[("v", ⟨.var "int32", false, .pyNone⟩)], [], 0⟩

/-- Sample state: a namespace holding one uncompiled typedef of a
primitive. -/
def typedefNs : NsState :=
  ⟨[("myint", ⟨.typedef ("int32"), false, .pyNone⟩)], [], 0⟩

/-- A restricted stand-in for Python `eval` on nonnegative integer
literal text (the enum member values of the samples). -/
def evalIntLit (s : String) : Int :=
  s.data.foldl (fun a c => a * 10 + Int.ofNat (c.toNat - 48)) 0

/-- The construction of `@enum Color` with members RED/GREEN/BLUE and no
`@type` unit. -/
def colorInit : NsState × Except PyErr Unit :=
  EnumDeclaration_init emptyNs "Color"
    [["RED", "0"], ["GREEN", "1"], ["BLUE", "2"]] none evalIntLit

/-- The declaration kinds whose compilation allocates a brand-new
top-level Python object on every fresh compile: Function (a new prototype
instance), Struct (a new class inside a new wrapper), Enum and Flags (a
new wrapper). Typedef is excluded: its compile returns whatever compiling
the aliased name returns, which may be an interned object. -/
def allocKind : DeclData → Bool
  | .func _ _ | .structD _ | .enum _ _ | .flags _ _ => true
  | _ => false

/-- The declaration kinds whose `compile` method exists and runs the
memoization skeleton (everything but Variable and a partially constructed
object). -/
def compilableDecl : DeclData → Bool
  | .func _ _ | .structD _ | .enum _ _ | .flags _ _ | .typedef _ => true
  | _ => false

/-- The allocation id at the top of an object, for the object kinds a
fresh declaration compile returns. -/
def allocTop : Obj → Option Nat
  | .funcObj i _ _ _ => some i
  | .wrapper i _ _ => some i
  | _ => none

/-- The state of `pointNs` after its struct has been compiled once. -/
def pointCompiled : NsState :=
  ⟨[("Point", ⟨.structD [("x", "int32"), ("y", "int32")], true,
      .wrapper 1
        (.structCls 0 [("x", .base "int32"), ("y", .base "int32")])
        "Point"⟩)], [], 2⟩

/-- The wrapper object the first compilation of `pointNs` returns. -/
def pointWrapper : Obj :=
  .wrapper 1 (.structCls 0 [("x", .base "int32"), ("y", .base "int32")])
    "Point"

/-- Looking up the key just written by `dictSet` yields the written
value. -/
theorem dictGet_dictSet_self {α : Type} (d : List (String × α)) (k : String)
    (v : α) : dictGet (dictSet d k v) k = some v := by
  unfold dictGet dictSet
  by_cases h : d.any (fun p => p.1 == k) = true
  · rw [if_pos h]
    induction d with
    | nil => simp at h
    | cons p rest ih =>
      simp only [List.any_cons, Bool.or_eq_true] at h
      simp only [List.map_cons]
      by_cases hp : (p.1 == k) = true
      · rw [if_pos hp]
        simp [List.find?_cons]
      · have hb : (p.1 == k) = false := by simpa using hp
        rw [if_neg hp]
        simp only [List.find?_cons, hb]
        rcases h with h | h
        · rw [hb] at h; cases h
        · exact ih h
  · rw [if_neg h]
    have hall : ∀ p ∈ d, ¬(p.1 == k) = true := by
      intro p hp hk
      exact h (List.any_eq_true.mpr ⟨p, hp, hk⟩)
    rw [List.find?_append, List.find?_eq_none.mpr hall]
    simp

/-- Writing one key with `dictSet` leaves the lookup of any other key
unchanged. -/
theorem dictGet_dictSet_ne {α : Type} (d : List (String × α))
    (k k' : String) (v : α) (hne : k' ≠ k) :
    dictGet (dictSet d k v) k' = dictGet d k' := by
  have hkv : (((k, v)).1 == k') = false :=
    beq_eq_false_iff_ne.mpr (fun hkk => hne hkk.symm)
  unfold dictGet dictSet
  by_cases h : d.any (fun p => p.1 == k) = true
  · rw [if_pos h]
    clear h
    induction d with
    | nil => rfl
    | cons p rest ih =>
      simp only [List.map_cons]
      by_cases hp : (p.1 == k) = true
      · have hP : p.1 = k := beq_iff_eq.mp hp
        have hp2 : (p.1 == k') = false :=
          beq_eq_false_iff_ne.mpr (fun hkk => hne (hP.symm.trans hkk).symm)
        rw [if_pos hp]
        simp only [List.find?_cons, hkv, hp2]
        exact ih
      · rw [if_neg hp]
        by_cases hq : (p.1 == k') = true
        · simp only [List.find?_cons, hq]
        · have hq2 : (p.1 == k') = false := by simpa using hq
          simp only [List.find?_cons, hq2]
          exact ih
  · rw [if_neg h]
    rw [List.find?_append]
    have h1 : ([(k, v)].find? (fun p => p.1 == k')) = none := by
      simp [hkv]
    rw [h1]
    simp

/-- Claim C4: constructing a Function declaration whose return unit has 2
values raises the arity error (`DeclarationError`), and constructing a
Struct declaration any of whose member units has 1 or 3 values raises the
arity error. -/
theorem function_struct_arity_errors
    (st st2 : NsState) (fname sname : String) (ru : List String)
    (au : Option (List (List String))) (mu : List (List String))
    (m : List String)
    (hru : ru.length = 2) (hm : m ∈ mu) (hml : m.length = 1 ∨ m.length = 3) :
    (FunctionDeclaration_init st fname ru au).2 =
      .error (.declarationError
        "Function declaration have more than one values for @return.")
    ∧ (StructDeclaration_init st2 sname mu).2 =
      .error (.declarationError
        "Struct declaration must have exactly 2 values for @member.") := by
  constructor
  · have h2 : ru.length ≠ 1 := by omega
    simp [FunctionDeclaration_init, h2]
  · have hany : mu.any (fun u => u.length != 2) = true :=
      List.any_eq_true.mpr
        ⟨m, hm, by rcases hml with h | h <;> simp [h]⟩
    simp [StructDeclaration_init, hany]

/-- Witness for C4 at concrete inputs: a function with two return values
and a struct with a one-value member unit. -/
theorem function_struct_arity_errors_witness :
    (FunctionDeclaration_init emptyNs "f" ["int32", "void"] none).2 =
      .error (.declarationError
        "Function declaration have more than one values for @return.")
    ∧ (StructDeclaration_init emptyNs "S" [["int32"]]).2 =
      .error (.declarationError
        "Struct declaration must have exactly 2 values for @member.") :=
  function_struct_arity_errors emptyNs emptyNs "f" "S" ["int32", "void"]
    none [["int32"]] ["int32"] rfl (by simp) (Or.inl rfl)

/-- Claim C9: every declaration kind's base constructor registers the
object into the namespace before the subclass's arity validation runs;
when construction then raises, the result pairs the mutated namespace (the
one `Declaration.__init__` produced) with the error, and the name stays
bound to the partially constructed declaration. -/
theorem registration_precedes_validation
    (st : NsState) (name : String)
    (ru : List String) (au : Option (List (List String)))
    (mu eu fu : List (List String))
    (etype ftype : Option (List String)) (ev : String → Int)
    (vu tu : List String)
    (hru : ru.length ≠ 1)
    (hmu : mu.any (fun u => u.length != 2) = true)
    (heu : eu.any (fun u => u.length != 2) = true)
    (hfu : fu.any (fun u => u.length != 2) = true)
    (hvu : vu.length ≠ 1) (htu : tu.length ≠ 1) :
    (FunctionDeclaration_init st name ru au =
      (Declaration_init st name .functionK, .error (.declarationError
        "Function declaration have more than one values for @return."))
     ∧ dictGet (FunctionDeclaration_init st name ru au).1.entries name =
        some ⟨.unfinished .functionK, false, .pyNone⟩)
    ∧ (StructDeclaration_init st name mu =
      (Declaration_init st name .structK, .error (.declarationError
        "Struct declaration must have exactly 2 values for @member."))
     ∧ dictGet (StructDeclaration_init st name mu).1.entries name =
        some ⟨.unfinished .structK, false, .pyNone⟩)
    ∧ (EnumDeclaration_init st name eu etype ev =
      (Declaration_init st name .enumK, .error (.declarationError
        "Struct declaration must have exactly 2 values for @member."))
     ∧ dictGet (EnumDeclaration_init st name eu etype ev).1.entries name =
        some ⟨.unfinished .enumK, false, .pyNone⟩)
    ∧ (FlagsDeclaration_init st name ftype fu ev =
      (Declaration_init st name .flagsK, .error (.declarationError
        "Flags declaration must have exactly 2 values for @flag."))
     ∧ dictGet (FlagsDeclaration_init st name ftype fu ev).1.entries name =
        some ⟨.unfinished .flagsK, false, .pyNone⟩)
    ∧ (VariableDeclaration_init st name vu =
      (Declaration_init st name .variableK, .error (.declarationError
        "Variable declaration must have one value for @type."))
     ∧ dictGet (VariableDeclaration_init st name vu).1.entries name =
        some ⟨.unfinished .variableK, false, .pyNone⟩)
    ∧ (TypedefDeclaration_init st name tu =
      (Declaration_init st name .typedefK, .error (.declarationError
        "TypedefDeclaration declaration must have one value for @from_type."))
     ∧ dictGet (TypedefDeclaration_init st name tu).1.entries name =
        some ⟨.unfinished .typedefK, false, .pyNone⟩) := by
  refine ⟨⟨?_, ?_⟩, ⟨?_, ?_⟩, ⟨?_, ?_⟩, ⟨?_, ?_⟩, ⟨?_, ?_⟩, ⟨?_, ?_⟩⟩ <;>
    simp [FunctionDeclaration_init, StructDeclaration_init,
      EnumDeclaration_init, FlagsDeclaration_init,
      VariableDeclaration_init, TypedefDeclaration_init,
      Declaration_init, dictGet_dictSet_self,
      hru, hmu, heu, hfu, hvu, htu]

/-- Witness for C9: each of the six constructors at a concrete
arity-violating input leaves the name bound to the partial object. -/
theorem registration_precedes_validation_witness :
    (FunctionDeclaration_init emptyNs "n" [] none =
      (Declaration_init emptyNs "n" .functionK, .error (.declarationError
        "Function declaration have more than one values for @return."))
     ∧ dictGet (FunctionDeclaration_init emptyNs "n" [] none).1.entries "n" =
        some ⟨.unfinished .functionK, false, .pyNone⟩)
    ∧ (StructDeclaration_init emptyNs "n" [["a", "b", "c"]] =
      (Declaration_init emptyNs "n" .structK, .error (.declarationError
        "Struct declaration must have exactly 2 values for @member."))
     ∧ dictGet (StructDeclaration_init emptyNs "n"
          [["a", "b", "c"]]).1.entries "n" =
        some ⟨.unfinished .structK, false, .pyNone⟩)
    ∧ (EnumDeclaration_init emptyNs "n" [["a"]] none (fun _ => 0) =
      (Declaration_init emptyNs "n" .enumK, .error (.declarationError
        "Struct declaration must have exactly 2 values for @member."))
     ∧ dictGet (EnumDeclaration_init emptyNs "n" [["a"]] none
          (fun _ => 0)).1.entries "n" =
        some ⟨.unfinished .enumK, false, .pyNone⟩)
    ∧ (FlagsDeclaration_init emptyNs "n" none [["a"]] (fun _ => 0) =
      (Declaration_init emptyNs "n" .flagsK, .error (.declarationError
        "Flags declaration must have exactly 2 values for @flag."))
     ∧ dictGet (FlagsDeclaration_init emptyNs "n" none [["a"]]
          (fun _ => 0)).1.entries "n" =
        some ⟨.unfinished .flagsK, false, .pyNone⟩)
    ∧ (VariableDeclaration_init emptyNs "n" ["a", "b"] =
      (Declaration_init emptyNs "n" .variableK, .error (.declarationError
        "Variable declaration must have one value for @type."))
     ∧ dictGet (VariableDeclaration_init emptyNs "n"
          ["a", "b"]).1.entries "n" =
        some ⟨.unfinished .variableK, false, .pyNone⟩)
    ∧ (TypedefDeclaration_init emptyNs "n" [] =
      (Declaration_init emptyNs "n" .typedefK, .error (.declarationError
        "TypedefDeclaration declaration must have one value for @from_type."))
     ∧ dictGet (TypedefDeclaration_init emptyNs "n" []).1.entries "n" =
        some ⟨.unfinished .typedefK, false, .pyNone⟩) :=
  registration_precedes_validation emptyNs "n" [] none
    [["a", "b", "c"]] [["a"]] [["a"]] none none (fun _ => 0) ["a", "b"] []
    (by decide) (by decide) (by decide) (by decide) (by decide) (by decide)

/-- Claim C8: when the builder's unit loop encounters a unit whose
stripped tag is neither the kind's own tag nor one of its recognized
singular or plural fields, it raises the unknown-unit error carrying the
tag as written and the kind, whatever has been accumulated so far. -/
theorem builder_unknown_tag_error
    (kind : KindInfo) (acc : BuildAcc) (tag : String) (vals : List String)
    (rest : List (String × List String))
    (h1 : (lstripAtSigns tag == kind.type_name) = false)
    (h2 : kind.singular_units.contains (lstripAtSigns tag) = false)
    (h3 : kind.plural_units.contains (lstripAtSigns tag) = false) :
    buildLoop kind acc ((tag, vals) :: rest) =
      .error (.unknownUnit tag kind.type_name) := by
  have h2' : lstripAtSigns tag ∉ kind.singular_units := by simpa using h2
  have h3' : lstripAtSigns tag ∉ kind.plural_units := by simpa using h3
  simp [buildLoop, buildStep, h1, h2', h3']

/-- Witness for C8: the function kind at the concrete unknown tag
`@bogus`. -/
theorem builder_unknown_tag_error_witness :
    buildLoop functionKindInfo ⟨[], [], none⟩ [("@bogus", ["x"])] =
      .error (.unknownUnit "@bogus" "function") :=
  builder_unknown_tag_error functionKindInfo ⟨[], [], none⟩ "@bogus" ["x"]
    [] (by decide) (by decide) (by decide)

/-- Claim C7: one scanned character captures the tag exactly when it is
whitespace (space or the sentinel newline) while the tag-name scan is on;
it performs a buffer flush exactly when it is whitespace, the tag-name
scan is off, and the depth counter is zero — either having just been
nonzero (a parenthesized run closed, flushed as one token) or with the
previous depth zero as well (plain token boundary); consequently a
parenthesis-enclosed value with internal spaces is returned as a single
value. -/
theorem tokenizer_flush_exactness :
    (∀ (s : TokState) (c : Char),
      (tokStepEv s c).2 = .tagCaptured ↔
        ((c = ' ' ∨ c = '\n') ∧ s.parsing_unit_type_name = true))
    ∧ (∀ (s : TokState) (c : Char),
      (tokStepEv s c).2 = .tokenFlushed ↔
        ((c = ' ' ∨ c = '\n') ∧ s.parsing_unit_type_name = false ∧
          ((s.bracket_stack_counter = 0 ∧
              ¬s.bracket_prev_stack_counter = 0) ∨
           (s.bracket_stack_counter = 0 ∧
              s.bracket_prev_stack_counter = 0))))
    ∧ parse_line_units "@member (long int) x" =
        ("@member", ["(long int)", "x"]) := by
  refine ⟨?_, ?_, rfl⟩
  · intro s c
    unfold tokStepEv
    by_cases hat : c = '@' <;> by_cases hsp : c = ' ' <;>
      by_cases hnl : c = '\n' <;> by_cases hpt : s.parsing_unit_type_name <;>
      by_cases hz : s.bracket_stack_counter = 0 <;>
      by_cases hpz : s.bracket_prev_stack_counter = 0 <;>
      simp_all
  · intro s c
    unfold tokStepEv
    by_cases hat : c = '@' <;> by_cases hsp : c = ' ' <;>
      by_cases hnl : c = '\n' <;> by_cases hpt : s.parsing_unit_type_name <;>
      by_cases hz : s.bracket_stack_counter = 0 <;>
      by_cases hpz : s.bracket_prev_stack_counter = 0 <;>
      simp_all

/-- A line whose first character is not a slash never matches the
comment-start pattern. -/
theorem commentStartMatchesL_cons_false {c : Char} {l : List Char}
    (h : ¬c = '/') : commentStartMatchesL (c :: l) = false := by
  unfold commentStartMatchesL
  split
  · rename_i heq
    injection heq with h1 h2
    exact absurd h1 h
  · rfl

/-- A whitespace character is not a slash. -/
theorem pyIsSpace_ne_slash {c : Char} (h : pyIsSpace c = true) : ¬c = '/' := by
  intro hc
  subst hc
  exact absurd h (by decide)

/-- Dropping while `p` holds skips over a prefix on which `p` is
everywhere true. -/
theorem dropWhile_append_all {p : Char → Bool} (ws l : List Char)
    (h : ∀ c ∈ ws, p c = true) :
    (ws ++ l).dropWhile p = l.dropWhile p := by
  induction ws with
  | nil => rfl
  | cons c ws ih =>
    simp only [List.cons_append, List.dropWhile_cons,
      h c (List.mem_cons_self c ws), if_true]
    exact ih (fun d hd => h d (List.mem_cons_of_mem c hd))

/-- Claim C6 counterexample: the line consisting of two spaces followed
by the comment opener — leading whitespace then the marker — does not
match the start pattern and does not open buffering, while the same line
without the whitespace does match. -/
theorem comment_open_indent_counterexample :
    pyIsSpace ' ' = true
    ∧ commentStartMatches "  /*" = false
    ∧ scrapStep ⟨[], false⟩ "  /*" = .ok (⟨[], false⟩, none)
    ∧ commentStartMatches "/*" = true :=
  ⟨rfl, rfl, rfl, rfl⟩

/-- Claim C6 as amended: the extractor opens buffering only on lines
whose comment opener sits at column zero; any nonempty leading whitespace
run prevents the block from opening, and a column-zero opener does open
it. -/
theorem comment_open_column_zero
    (st : ScrapState) (ws rest : List Char)
    (hin : st.inside_declaration = false)
    (hws : ∀ c ∈ ws, pyIsSpace c = true) (hne : ws ≠ []) :
    scrapStep st ⟨ws ++ '/' :: '*' :: rest⟩ =
      .ok (⟨st.declaration_buffer, false⟩, none)
    ∧ scrapStep st ⟨'/' :: '*' :: rest⟩ =
      .ok (⟨st.declaration_buffer ++ [⟨'/' :: '*' :: rest⟩], true⟩, none) := by
  have hslash : pyIsSpace '/' = false := by decide
  have hendtail :
      commentEndMatchesL ('/' :: '*' :: rest) = false := by
    unfold commentEndMatchesL
    rw [List.dropWhile_cons, hslash]
    simp
  constructor
  · obtain ⟨c, ws', rfl⟩ : ∃ c ws', ws = c :: ws' := by
      cases ws with
      | nil => exact absurd rfl hne
      | cons c ws' => exact ⟨c, ws', rfl⟩
    have hstart : commentStartMatches ⟨(c :: ws') ++ '/' :: '*' :: rest⟩
        = false := by
      unfold commentStartMatches
      exact commentStartMatchesL_cons_false
        (pyIsSpace_ne_slash (hws c (List.mem_cons_self c ws')))
    have hend : commentEndMatches ⟨(c :: ws') ++ '/' :: '*' :: rest⟩
        = false := by
      unfold commentEndMatches commentEndMatchesL
      rw [show (⟨(c :: ws') ++ '/' :: '*' :: rest⟩ : String).data
            = (c :: ws') ++ '/' :: '*' :: rest from rfl,
        dropWhile_append_all _ _ hws, List.dropWhile_cons, hslash]
      simp
    unfold scrapStep
    rw [hstart, hend, hin]
    simp
  · have hstart : commentStartMatches ⟨'/' :: '*' :: rest⟩ = true := rfl
    have hend : commentEndMatches ⟨'/' :: '*' :: rest⟩ = false := hendtail
    unfold scrapStep
    rw [hstart, hend]
    simp

/-- Witness for C6's amended statement: one leading space suppresses the
opening; the same text at column zero opens and buffers the line. -/
theorem comment_open_column_zero_witness :
    scrapStep ⟨[], false⟩ ⟨[' '] ++ '/' :: '*' :: []⟩ =
      .ok (⟨[], false⟩, none)
    ∧ scrapStep ⟨[], false⟩ ⟨'/' :: '*' :: []⟩ =
      .ok (⟨[] ++ [⟨'/' :: '*' :: []⟩], true⟩, none) :=
  comment_open_column_zero ⟨[], false⟩ [' '] [] rfl
    (by intro c hc; simp at hc; subst hc; rfl) (by simp)


/-- Resetting the whole namespace never touches a variable entry: the
fold of `reset_compilation` over the keys preserves any entry that is a
`VariableDeclaration` instance. -/
theorem reset_fold_preserves_var
    (name : String) (e : Entry) (hvar : isVariableInst e.decl = true)
    (ks : List String) :
    ∀ (s : NsState), dictGet s.entries name = some e →
      dictGet ((ks.foldl (fun s n => (reset_compilation s n).1) s).entries)
        name = some e := by
  induction ks with
  | nil => intro s h; exact h
  | cons k ks ih =>
    intro s h
    rw [List.foldl_cons]
    apply ih
    unfold reset_compilation
    cases hk : dictGet s.entries k with
    | none => exact h
    | some ek =>
      simp only []
      by_cases hkv : isVariableInst ek.decl = true
      · rw [if_pos hkv]
        exact h
      · rw [if_neg hkv]
        by_cases hkeq : k = name
        · subst hkeq
          rw [hk] at h
          injection h with h'
          subst h'
          exact absurd hvar hkv
        · show dictGet (dictSet s.entries k _) name = some e
          rw [dictGet_dictSet_ne _ _ _ _ (fun hh => hkeq hh.symm)]
          exact h

/-- Claim C10: both reset operations leave a variable entry untouched —
`reset_compilation` on its name returns the state unchanged, and
`reset_compilations` preserves its entry (its compiled flag and memoized
type included) exactly as it was. -/
theorem reset_skips_variables
    (st : NsState) (name t : String) (e : Entry)
    (he : dictGet st.entries name = some e) (hd : e.decl = .var t) :
    reset_compilation st name = (st, .ok ())
    ∧ dictGet (reset_compilations st).entries name = some e := by
  have hvar : isVariableInst e.decl = true := by rw [hd]; rfl
  constructor
  · unfold reset_compilation
    rw [he]
    simp only []
    rw [if_pos hvar]
  · unfold reset_compilations
    exact reset_fold_preserves_var name e hvar _ st he

/-- Witness for C10: a variable already memoized through its value
accessor keeps its compiled flag and cached type across both resets. -/
theorem reset_skips_variables_witness :
    reset_compilation
        ⟨[("v", ⟨.var "int32", true, .base "int32"⟩)], [], 0⟩ "v" =
      (⟨[("v", ⟨.var "int32", true, .base "int32"⟩)], [], 0⟩, .ok ())
    ∧ dictGet (reset_compilations
        ⟨[("v", ⟨.var "int32", true, .base "int32"⟩)], [], 0⟩).entries "v" =
      some ⟨.var "int32", true, .base "int32"⟩ :=
  reset_skips_variables
    ⟨[("v", ⟨.var "int32", true, .base "int32"⟩)], [], 0⟩ "v" "int32"
    ⟨.var "int32", true, .base "int32"⟩ rfl rfl

/-- Claim C3 counterexample: with `v` registered as a Variable,
`compile("v")` does not raise — it returns the `VariableDeclaration`
object itself, with the namespace unchanged. -/
theorem variable_compile_returns_object_counterexample :
    nsCompile 2 varNs (.str "v") false = (varNs, .ok (.declObj "v")) := rfl

/-- Claim C3 as amended: resolving a Variable's name through
`Namespace.compile` raises nothing and yields the declaration object
itself (whatever the unwrap flag); the usage error lives one level down,
in `VariableDeclaration.compile`, which raises TypeError unconditionally
when called directly. -/
theorem variable_compile_no_usage_error
    (fuel : Nat) (st : NsState) (s t : String) (e : Entry) (u : Bool)
    (hfu : 0 < fuel)
    (hemp : s.data.isEmpty = false)
    (hstar : (s.data.getLast?.getD ' ' == '*') = false)
    (hbr : (s.data.contains '[' && s.data.contains ']') = false)
    (hbase : dictGet BASE_C_TYPES s = none)
    (he : dictGet st.entries s = some e) (hd : e.decl = .var t) :
    nsCompile fuel st (.str s) u = (st, .ok (.declObj s))
    ∧ VariableDeclaration_compile s =
      .error (.typeError
        ("Tried to compile variable `" ++ s ++
         "`. Variables cannot be used like type names. Use @typedef instead.")) := by
  obtain ⟨f, rfl⟩ : ∃ f, fuel = f + 1 := ⟨fuel - 1, by omega⟩
  refine ⟨?_, rfl⟩
  unfold nsCompile
  simp only []
  rw [hemp, hstar, hbr, hbase, he]
  simp [hd, isVariableInst]

/-- Witness for C3's amended statement at the concrete variable `v`. -/
theorem variable_compile_no_usage_error_witness :
    nsCompile 2 varNs (.str "v") true = (varNs, .ok (.declObj "v"))
    ∧ VariableDeclaration_compile "v" =
      .error (.typeError
        ("Tried to compile variable `" ++ "v" ++
         "`. Variables cannot be used like type names. Use @typedef instead.")) :=
  variable_compile_no_usage_error 2 varNs "v" "int32"
    ⟨.var "int32", false, .pyNone⟩ true (by decide) rfl rfl rfl rfl rfl rfl

/-- Claim C1, evaluated at the failing input: `compile("int32[4]")` does
not build an array type — the captured `amount` group stays a string and
multiplying the compiled element type by it raises TypeError — while the
pointer suffix does work (`compile("Point*")` yields
pointer-to-unwrapped-Point). -/
theorem array_suffix_multiplies_by_string :
    nsCompile 4 emptyNs (.str "int32[4]") false =
      (emptyNs, .error
        (.typeError "cannot multiply sequence by non-int of type str"))
    ∧ nsCompile 4 pointNs (.str "Point*") false =
      (⟨[("Point", ⟨.structD [("x", "int32"), ("y", "int32")], true,
          .wrapper 1
            (.structCls 0 [("x", .base "int32"), ("y", .base "int32")])
            "Point"⟩)], [], 2⟩,
       .ok (.ptr (.structCls 0 [("x", .base "int32"), ("y", .base "int32")]))) :=
  ⟨rfl, rfl⟩

/-- Claim C5, evaluated at the failing input: an Enum constructed without
a type unit stores the ctypes class `BASE_C_TYPES["int"]` itself (not the
name "int") as its underlying type, so compiling it passes that class to
`Namespace.compile`, whose first step `name[-1]` subscripts the class and
raises TypeError instead of producing the wrapped native signed int. -/
theorem enum_default_type_compile_error :
    colorInit.2 = .ok ()
    ∧ dictGet colorInit.1.entries "Color" =
        some ⟨.enum (.cls (.base "int"))
          [("RED", 0), ("GREEN", 1), ("BLUE", 2)], false, .pyNone⟩
    ∧ nsCompile 3 colorInit.1 (.str "Color") false =
        (colorInit.1, .error (.typeError "object is not subscriptable")) :=
  ⟨rfl, rfl, rfl⟩

/-- Threading a nextId-monotone compile over a type list is
nextId-monotone. -/
theorem threadTypes_nextId_le
    (f : String → NsState → NsState × Except PyErr Obj)
    (hf : ∀ t s, s.nextId ≤ (f t s).1.nextId) :
    ∀ (ts : List String) (st : NsState),
      st.nextId ≤ (threadTypes f st ts).1.nextId := by
  intro ts
  induction ts with
  | nil => intro st; exact Nat.le_refl _
  | cons t ts ih =>
    intro st
    unfold threadTypes
    cases hft : f t st with
    | mk st1 r =>
      have h1 : st.nextId ≤ st1.nextId := by
        have := hf t st
        rw [hft] at this
        exact this
      cases r with
      | error e => simpa using h1
      | ok o =>
        simp only []
        cases hrest : threadTypes f st1 ts with
        | mk st2 r2 =>
          have h2 : st1.nextId ≤ st2.nextId := by
            have := ih st1
            rw [hrest] at this
            exact this
          cases r2 <;> simpa using Nat.le_trans h1 h2

/-- Threading a nextId-monotone compile over struct fields is
nextId-monotone. -/
theorem threadFields_nextId_le
    (f : String → NsState → NsState × Except PyErr Obj)
    (hf : ∀ t s, s.nextId ≤ (f t s).1.nextId) :
    ∀ (ms : List (String × String)) (st : NsState),
      st.nextId ≤ (threadFields f st ms).1.nextId := by
  intro ms
  induction ms with
  | nil => intro st; exact Nat.le_refl _
  | cons m ms ih =>
    intro st
    obtain ⟨fn, ft⟩ := m
    unfold threadFields
    cases hft : f ft st with
    | mk st1 r =>
      have h1 : st.nextId ≤ st1.nextId := by
        have := hf ft st
        rw [hft] at this
        exact this
      cases r with
      | error e => simpa using h1
      | ok o =>
        simp only []
        cases hrest : threadFields f st1 ms with
        | mk st2 r2 =>
          have h2 : st1.nextId ≤ st2.nextId := by
            have := ih st1
            rw [hrest] at this
            exact this
          cases r2 <;> simpa using Nat.le_trans h1 h2

/-- The allocation counter never decreases across a compilation, whatever
the outcome. -/
theorem nsCompile_nextId_le :
    ∀ (fuel : Nat) (st : NsState) (r : TypeRef) (u : Bool),
      st.nextId ≤ (nsCompile fuel st r u).1.nextId := by
  intro fuel
  induction fuel with
  | zero => intro st r u; exact Nat.le_refl _
  | succ f ih =>
    intro st r u
    unfold nsCompile
    cases r with
    | cls o => exact Nat.le_refl _
    | str s =>
      simp only []
      by_cases hemp : s.data.isEmpty = true
      · rw [if_pos hemp]
      · rw [if_neg hemp]
        by_cases hstar : (s.data.getLast?.getD ' ' == '*') = true
        · rw [if_pos hstar]
          cases hrec : nsCompile f st (.str ⟨s.data.dropLast⟩) false with
          | mk st1 r1 =>
            have h1 : st.nextId ≤ st1.nextId := by
              have := ih st (.str ⟨s.data.dropLast⟩) false
              rw [hrec] at this
              exact this
            cases r1 with
            | error e => simpa using h1
            | ok c =>
              simp only []
              cases pyPOINTER (unwrapObj c) <;> simpa using h1
        · rw [if_neg hstar]
          by_cases hbr : (s.data.contains '[' && s.data.contains ']') = true
          · rw [if_pos hbr]
            cases arrayReMatch s with
            | none => exact Nat.le_refl _
            | some p =>
              obtain ⟨tn, am⟩ := p
              simp only []
              cases hrec : nsCompile f st (.str tn) false with
              | mk st1 r1 =>
                have h1 : st.nextId ≤ st1.nextId := by
                  have := ih st (.str tn) false
                  rw [hrec] at this
                  exact this
                cases r1 <;> simpa using h1
          · rw [if_neg hbr]
            cases dictGet BASE_C_TYPES s with
            | some o => exact Nat.le_refl _
            | none =>
              simp only []
              cases dictGet st.entries s with
              | none => exact Nat.le_refl _
              | some e =>
                simp only []
                by_cases hvar : isVariableInst e.decl = true
                · rw [if_pos hvar]
                · rw [if_neg hvar]
                  cases e.decl with
                  | var t => exact Nat.le_refl _
                  | unfinished k => exact Nat.le_refl _
                  | func ret args =>
                    simp only []
                    by_cases hc : e.compiled = true
                    · rw [if_pos hc]
                    · rw [if_neg hc]
                      have hmono := threadTypes_nextId_le
                        (fun t s2 => nsCompile f s2 (.str t) true)
                        (fun t s2 => ih s2 (.str t) true) (ret :: args) st
                      cases hth : threadTypes
                          (fun t s2 => nsCompile f s2 (.str t) true)
                          st (ret :: args) with
                      | mk st1 r1 =>
                        rw [hth] at hmono
                        cases r1 with
                        | error er => simpa using hmono
                        | ok objs =>
                          simp only []
                          cases objs with
                          | nil => simpa using hmono
                          | cons retO argOs =>
                            simp only []
                            by_cases hv : ((isCtypesType retO || isPyNone retO)
                                && argOs.all isCtypesType) = true
                            · rw [if_pos hv]
                              by_cases hlib : st1.lib.contains s = true
                              · rw [if_pos hlib]
                                simp only [dictSetEntry]
                                exact Nat.le_trans hmono (Nat.le_succ _)
                              · rw [if_neg hlib]
                                simpa using hmono
                            · rw [if_neg hv]
                              simpa using hmono
                  | structD members =>
                    simp only []
                    by_cases hc : e.compiled = true
                    · rw [if_pos hc]
                    · rw [if_neg hc]
                      have hmono := threadFields_nextId_le
                        (fun t s2 => nsCompile f s2 (.str t) true)
                        (fun t s2 => ih s2 (.str t) true) members st
                      cases hth : threadFields
                          (fun t s2 => nsCompile f s2 (.str t) true)
                          st members with
                      | mk st1 r1 =>
                        rw [hth] at hmono
                        cases r1 with
                        | error er => simpa using hmono
                        | ok fields =>
                          simp only []
                          by_cases hv : (fields.all fun p => isCtypesType p.2)
                              = true
                          · rw [if_pos hv]
                            simp only [dictSetEntry]
                            exact Nat.le_trans hmono
                              (Nat.le_trans (Nat.le_succ _) (Nat.le_succ _))
                          · rw [if_neg hv]
                            simpa using hmono
                  | enum etype members =>
                    simp only []
                    by_cases hc : e.compiled = true
                    · rw [if_pos hc]
                    · rw [if_neg hc]
                      cases hrec : nsCompile f st etype true with
                      | mk st1 r1 =>
                        have h1 : st.nextId ≤ st1.nextId := by
                          have := ih st etype true
                          rw [hrec] at this
                          exact this
                        cases r1 with
                        | error er => simpa using h1
                        | ok subj =>
                          simp only [dictSetEntry]
                          exact Nat.le_trans h1 (Nat.le_succ _)
                  | flags ftype members =>
                    simp only []
                    by_cases hc : e.compiled = true
                    · rw [if_pos hc]
                    · rw [if_neg hc]
                      cases hrec : nsCompile f st ftype true with
                      | mk st1 r1 =>
                        have h1 : st.nextId ≤ st1.nextId := by
                          have := ih st ftype true
                          rw [hrec] at this
                          exact this
                        cases r1 with
                        | error er => simpa using h1
                        | ok subj =>
                          simp only [dictSetEntry]
                          exact Nat.le_trans h1 (Nat.le_succ _)
                  | typedef old =>
                    simp only []
                    by_cases hc : e.compiled = true
                    · rw [if_pos hc]
                    · rw [if_neg hc]
                      cases hrec : nsCompile f st (.str old) false with
                      | mk st1 r1 =>
                        have h1 : st.nextId ≤ st1.nextId := by
                          have := ih st (.str old) false
                          rw [hrec] at this
                          exact this
                        cases r1 with
                        | error er => simpa using h1
                        | ok res =>
                          simpa [dictSetEntry] using h1

/-- What a successful first (uncompiled) compilation of a registered
non-variable declaration does: it caches the returned object in the
entry, never decreases the allocation counter, and, for the kinds that
allocate a fresh top-level object (Function, Struct, Enum, Flags), the
returned object's top allocation id is fresh — at least the starting
counter and below the final one. -/
theorem nsCompile_fresh_spec
    (f : Nat) (st st' : NsState) (s : String) (e : Entry) (o : Obj)
    (hemp : s.data.isEmpty = false)
    (hstar : (s.data.getLast?.getD ' ' == '*') = false)
    (hbr : (s.data.contains '[' && s.data.contains ']') = false)
    (hbase : dictGet BASE_C_TYPES s = none)
    (he : dictGet st.entries s = some e)
    (hnv : isVariableInst e.decl = false)
    (hc : e.compiled = false)
    (hrun : nsCompile (f + 1) st (.str s) false = (st', .ok o)) :
    dictGet st'.entries s = some ⟨e.decl, true, o⟩
    ∧ st.nextId ≤ st'.nextId
    ∧ (allocKind e.decl = true →
        ∃ i, allocTop o = some i ∧ st.nextId ≤ i ∧ i < st'.nextId) := by
  have hff : ¬(false = true) := by simp
  have hnv' : ¬(isVariableInst e.decl = true) := by simp [hnv]
  have hc' : ¬(e.compiled = true) := by simp [hc]
  unfold nsCompile at hrun
  simp only [] at hrun
  rw [hemp, if_neg hff, hstar, if_neg hff, hbr, if_neg hff, hbase] at hrun
  simp only [] at hrun
  rw [he] at hrun
  simp only [] at hrun
  rw [if_neg hnv'] at hrun
  cases hde : e.decl with
  | var t =>
    rw [hde] at hnv
    simp [isVariableInst] at hnv
  | unfinished k =>
    rw [hde] at hrun
    simp only [] at hrun
    simp at hrun
  | func ret args =>
    rw [hde] at hrun
    simp only [] at hrun
    rw [if_neg hc'] at hrun
    have hmono := threadTypes_nextId_le
      (fun t s2 => nsCompile f s2 (.str t) true)
      (fun t s2 => nsCompile_nextId_le f s2 (.str t) true) (ret :: args) st
    cases hth : threadTypes (fun t s2 => nsCompile f s2 (.str t) true)
        st (ret :: args) with
    | mk st1 r1 =>
      rw [hth] at hrun hmono
      dsimp only at hmono
      cases r1 with
      | error er => simp at hrun
      | ok objs =>
        simp only [] at hrun
        cases objs with
        | nil => simp at hrun
        | cons retO argOs =>
          simp only [] at hrun
          by_cases hv : ((isCtypesType retO || isPyNone retO)
              && argOs.all isCtypesType) = true
          · rw [if_pos hv] at hrun
            by_cases hlib : st1.lib.contains s = true
            · rw [if_pos hlib, if_neg hff] at hrun
              simp only [Prod.mk.injEq, Except.ok.injEq] at hrun
              obtain ⟨h1, h2⟩ := hrun
              subst h1
              subst h2
              refine ⟨?_, ?_, ?_⟩
              · simp only [dictSetEntry, hde]
                exact dictGet_dictSet_self _ _ _
              · simp only [dictSetEntry]
                exact Nat.le_trans hmono (Nat.le_succ _)
              · intro _
                exact ⟨st1.nextId, rfl, hmono, by
                  simp only [dictSetEntry]
                  omega⟩
            · rw [if_neg hlib] at hrun
              simp at hrun
          · rw [if_neg hv] at hrun
            simp at hrun
  | structD members =>
    rw [hde] at hrun
    simp only [] at hrun
    rw [if_neg hc'] at hrun
    have hmono := threadFields_nextId_le
      (fun t s2 => nsCompile f s2 (.str t) true)
      (fun t s2 => nsCompile_nextId_le f s2 (.str t) true) members st
    cases hth : threadFields (fun t s2 => nsCompile f s2 (.str t) true)
        st members with
    | mk st1 r1 =>
      rw [hth] at hrun hmono
      dsimp only at hmono
      cases r1 with
      | error er => simp at hrun
      | ok fields =>
        simp only [] at hrun
        by_cases hv : (fields.all fun p => isCtypesType p.2) = true
        · rw [if_pos hv, if_neg hff] at hrun
          simp only [Prod.mk.injEq, Except.ok.injEq] at hrun
          obtain ⟨h1, h2⟩ := hrun
          subst h1
          subst h2
          refine ⟨?_, ?_, ?_⟩
          · simp only [dictSetEntry, hde]
            exact dictGet_dictSet_self _ _ _
          · simp only [dictSetEntry]
            omega
          · intro _
            exact ⟨st1.nextId + 1, rfl, by omega, by
              simp only [dictSetEntry]
              omega⟩
        · rw [if_neg hv] at hrun
          simp at hrun
  | enum etype members =>
    rw [hde] at hrun
    simp only [] at hrun
    rw [if_neg hc'] at hrun
    have hmono := nsCompile_nextId_le f st etype true
    cases hrec : nsCompile f st etype true with
    | mk st1 r1 =>
      rw [hrec] at hrun hmono
      dsimp only at hmono
      cases r1 with
      | error er => simp at hrun
      | ok subj =>
        simp only [] at hrun
        rw [if_neg hff] at hrun
        simp only [Prod.mk.injEq, Except.ok.injEq] at hrun
        obtain ⟨h1, h2⟩ := hrun
        subst h1
        subst h2
        refine ⟨?_, ?_, ?_⟩
        · simp only [dictSetEntry, hde]
          exact dictGet_dictSet_self _ _ _
        · simp only [dictSetEntry]
          omega
        · intro _
          exact ⟨st1.nextId, rfl, hmono, by
            simp only [dictSetEntry]
            omega⟩
  | flags ftype members =>
    rw [hde] at hrun
    simp only [] at hrun
    rw [if_neg hc'] at hrun
    have hmono := nsCompile_nextId_le f st ftype true
    cases hrec : nsCompile f st ftype true with
    | mk st1 r1 =>
      rw [hrec] at hrun hmono
      dsimp only at hmono
      cases r1 with
      | error er => simp at hrun
      | ok subj =>
        simp only [] at hrun
        rw [if_neg hff] at hrun
        simp only [Prod.mk.injEq, Except.ok.injEq] at hrun
        obtain ⟨h1, h2⟩ := hrun
        subst h1
        subst h2
        refine ⟨?_, ?_, ?_⟩
        · simp only [dictSetEntry, hde]
          exact dictGet_dictSet_self _ _ _
        · simp only [dictSetEntry]
          omega
        · intro _
          exact ⟨st1.nextId, rfl, hmono, by
            simp only [dictSetEntry]
            omega⟩
  | typedef old =>
    rw [hde] at hrun
    simp only [] at hrun
    rw [if_neg hc'] at hrun
    have hmono := nsCompile_nextId_le f st (.str old) false
    cases hrec : nsCompile f st (.str old) false with
    | mk st1 r1 =>
      rw [hrec] at hrun hmono
      dsimp only at hmono
      cases r1 with
      | error er => simp at hrun
      | ok res =>
        simp only [] at hrun
        rw [if_neg hff] at hrun
        simp only [Prod.mk.injEq, Except.ok.injEq] at hrun
        obtain ⟨h1, h2⟩ := hrun
        subst h1
        subst h2
        refine ⟨?_, ?_, ?_⟩
        · simp only [dictSetEntry, hde]
          exact dictGet_dictSet_self _ _ _
        · simp only [dictSetEntry]
          exact hmono
        · intro habs
          simp [allocKind, hde] at habs

/-- A second compile of an already-compiled declaration is a pure cache
hit: the state is unchanged and the stored `compilation_result` is
returned. -/
theorem nsCompile_cache_hit
    (f : Nat) (st : NsState) (s : String) (e : Entry)
    (hemp : s.data.isEmpty = false)
    (hstar : (s.data.getLast?.getD ' ' == '*') = false)
    (hbr : (s.data.contains '[' && s.data.contains ']') = false)
    (hbase : dictGet BASE_C_TYPES s = none)
    (he : dictGet st.entries s = some e)
    (hnv : isVariableInst e.decl = false)
    (hcd : compilableDecl e.decl = true)
    (hc : e.compiled = true) :
    nsCompile (f + 1) st (.str s) false = (st, .ok e.compilation_result) := by
  have hff : ¬(false = true) := by simp
  have hnv' : ¬(isVariableInst e.decl = true) := by simp [hnv]
  unfold nsCompile
  simp only []
  rw [hemp, if_neg hff, hstar, if_neg hff, hbr, if_neg hff, hbase]
  simp only []
  rw [he]
  simp only []
  rw [if_neg hnv']
  cases hde : e.decl with
  | var t =>
    rw [hde] at hnv
    simp [isVariableInst] at hnv
  | unfinished k =>
    rw [hde] at hcd
    simp [compilableDecl] at hcd
  | func ret args =>
    simp only []
    rw [if_pos hc, if_neg hff]
  | structD members =>
    simp only []
    rw [if_pos hc, if_neg hff]
  | enum etype members =>
    simp only []
    rw [if_pos hc, if_neg hff]
  | flags ftype members =>
    simp only []
    rw [if_pos hc, if_neg hff]
  | typedef old =>
    simp only []
    rw [if_pos hc, if_neg hff]

/-- Claim C2 counterexample: a Typedef of a primitive. The first compile
caches the interned primitive class; `reset_compilation` puts the entry
back exactly as registered; the next compile returns the same interned
object again — not a new one — because a typedef's compile returns
whatever compiling its aliased name returns. -/
theorem typedef_reset_identical_counterexample :
    (nsCompile 3 typedefNs (.str "myint") false).2 = .ok (.base "int32")
    ∧ (reset_compilation
        (nsCompile 3 typedefNs (.str "myint") false).1 "myint").1 =
      typedefNs
    ∧ (nsCompile 3 ((reset_compilation
          (nsCompile 3 typedefNs (.str "myint") false).1 "myint").1)
        (.str "myint") false).2 = .ok (.base "int32") :=
  ⟨rfl, rfl, rfl⟩

/-- Claim C2 as amended: for a registered, not-yet-compiled declaration
of an allocating kind (Function, Struct, Enum, Flags — every non-Variable
kind except Typedef), a successful compile memoizes its result, a second
compile returns the identical cached object with the namespace untouched,
and after `reset_compilation` the next successful compile returns an
object distinct from the one cached before the reset. A Typedef instead
re-returns whatever compiling its aliased name yields, which can be the
identical interned object. -/
theorem compile_memoized_and_reset_fresh
    (fuel g h : Nat) (st st1 : NsState) (s : String) (e : Entry) (o1 : Obj)
    (hemp : s.data.isEmpty = false)
    (hstar : (s.data.getLast?.getD ' ' == '*') = false)
    (hbr : (s.data.contains '[' && s.data.contains ']') = false)
    (hbase : dictGet BASE_C_TYPES s = none)
    (he : dictGet st.entries s = some e)
    (hc : e.compiled = false)
    (hk : allocKind e.decl = true)
    (h1 : nsCompile fuel st (.str s) false = (st1, .ok o1))
    (hg : 0 < g) :
    nsCompile g st1 (.str s) false = (st1, .ok o1)
    ∧ ∀ st2 r2 st3 o2,
        reset_compilation st1 s = (st2, r2) →
        nsCompile h st2 (.str s) false = (st3, .ok o2) →
        o2 ≠ o1 := by
  have hnv : isVariableInst e.decl = false := by
    cases hdd : e.decl <;> simp_all [allocKind, isVariableInst]
  have hcd : compilableDecl e.decl = true := by
    cases hdd : e.decl <;> simp_all [allocKind, compilableDecl]
  obtain ⟨f, rfl⟩ : ∃ f, fuel = f + 1 := by
    cases fuel with
    | zero => simp [nsCompile] at h1
    | succ f => exact ⟨f, rfl⟩
  obtain ⟨hcache, hmono1, hfresh1⟩ :=
    nsCompile_fresh_spec f st st1 s e o1 hemp hstar hbr hbase he hnv hc h1
  obtain ⟨i1, hi1top, hi1lo, hi1hi⟩ := hfresh1 hk
  constructor
  · obtain ⟨g', rfl⟩ : ∃ g', g = g' + 1 := ⟨g - 1, by omega⟩
    exact nsCompile_cache_hit g' st1 s ⟨e.decl, true, o1⟩
      hemp hstar hbr hbase hcache hnv hcd rfl
  · intro st2 r2 st3 o2 hreset hrun2
    have hnv2' : ¬(isVariableInst (⟨e.decl, true, o1⟩ : Entry).decl = true) := by
      simp [hnv]
    have hst2 : st2 = dictSetEntry st1 s ⟨e.decl, false, .pyNone⟩ := by
      unfold reset_compilation at hreset
      rw [hcache] at hreset
      simp only [] at hreset
      rw [if_neg hnv2'] at hreset
      simp only [Prod.mk.injEq] at hreset
      exact hreset.1.symm
    subst hst2
    have he2 : dictGet (dictSetEntry st1 s
        (⟨e.decl, false, .pyNone⟩ : Entry)).entries s =
        some ⟨e.decl, false, .pyNone⟩ := by
      simp only [dictSetEntry]
      exact dictGet_dictSet_self _ _ _
    obtain ⟨h2, rfl⟩ : ∃ h2, h = h2 + 1 := by
      cases h with
      | zero => simp [nsCompile] at hrun2
      | succ hh => exact ⟨hh, rfl⟩
    obtain ⟨_, _, hfresh2⟩ :=
      nsCompile_fresh_spec h2 _ st3 s ⟨e.decl, false, .pyNone⟩ o2
        hemp hstar hbr hbase he2 hnv rfl hrun2
    obtain ⟨i2, hi2top, hi2lo, _⟩ := hfresh2 hk
    have hi2lo' : st1.nextId ≤ i2 := hi2lo
    intro heq
    rw [heq, hi1top] at hi2top
    injection hi2top with hii
    omega

/-- Witness for C2's amended statement: the `Point` struct compiled in
`pointNs`, whose recompile after a reset yields a wrapper with a fresh
allocation id (2 rather than 1). -/
theorem compile_memoized_and_reset_fresh_witness :
    nsCompile 4 pointCompiled (.str "Point") false =
      (pointCompiled, .ok pointWrapper)
    ∧ ∀ st2 r2 st3 o2,
        reset_compilation pointCompiled "Point" = (st2, r2) →
        nsCompile 4 st2 (.str "Point") false = (st3, .ok o2) →
        o2 ≠ pointWrapper :=
  compile_memoized_and_reset_fresh 4 4 4 pointNs pointCompiled "Point"
    ⟨.structD [("x", "int32"), ("y", "int32")], false, .pyNone⟩ pointWrapper
    rfl rfl rfl rfl rfl rfl rfl rfl (by decide)
